import Mathlib

/-!
Shallow embedding of `src/Tools/islamic_financing.py` (module-level tables and the
functions `_safe_float_convert`, `_normalize_vehicle_type`, `_validate_inputs`,
`_get_profit_rate`, `calculate_islamic_financing`, `calculate_multiple_scenarios`).
Python floats are modelled as exact rationals (ℚ); Python strings as Lean `String`
manipulated through their character lists.
-/

namespace IslamicFinancing

/-! Python string primitives -/

/-- The list `needle` occurs as a contiguous run of `hay`. -/
def containsSub (needle : List Char) : List Char → Bool
  | [] => needle.isEmpty
  | c :: rest => List.isPrefixOf needle (c :: rest) || containsSub needle rest

/-- Python `needle in hay` (substring containment). -/
def strContains (hay needle : String) : Bool :=
  containsSub needle.toList hay.toList

/-- One fuel-indexed step of Python `str.replace(old, "")`: remove every
left-to-right non-overlapping occurrence of `needle`. -/
def removeAllAux (needle : List Char) : Nat → List Char → List Char
  | 0, hay => hay
  | _ + 1, [] => []
  | fuel + 1, c :: rest =>
    if needle ≠ [] ∧ List.isPrefixOf needle (c :: rest) then
      removeAllAux needle fuel (List.drop (needle.length - 1) rest)
    else
      c :: removeAllAux needle fuel rest

/-- Python `s.replace(needle, "")`. -/
def removeAll (needle hay : List Char) : List Char :=
  removeAllAux needle hay.length hay

/-- Python `str.strip()`: drop leading and trailing whitespace. -/
def stripChars (cs : List Char) : List Char :=
  ((cs.dropWhile Char.isWhitespace).reverse.dropWhile Char.isWhitespace).reverse

/-- Python `s.lower()` (ASCII case folding, which covers all inputs used here). -/
def pyLower (s : String) : String :=
  ⟨s.toList.map Char.toLower⟩

/-- Python `s.strip()` on a `String`. -/
def pyStrip (s : String) : String :=
  ⟨stripChars s.toList⟩

/-- Digits of a character list read as a natural number (base 10). -/
def digitsToNat (cs : List Char) : Nat :=
  cs.foldl (fun n c => 10 * n + (c.toNat - 48)) 0

/-- Python `float(s)` on the plain decimal literals this module feeds it:
optional sign, then digits with at most one decimal point and at least one
digit; anything else raises `ValueError`, modelled as `none`. -/
def parseDecimal (s : String) : Option ℚ :=
  let cs := s.toList
  let signAndRest : ℚ × List Char :=
    match cs with
    | '-' :: r => (-1, r)
    | '+' :: r => (1, r)
    | r => (1, r)
  let sign := signAndRest.1
  let rest := signAndRest.2
  let intPart := rest.takeWhile Char.isDigit
  let rest2 := rest.dropWhile Char.isDigit
  match rest2 with
  | [] =>
    if intPart.isEmpty then none
    else some (sign * (digitsToNat intPart : ℚ))
  | '.' :: frac =>
    if frac.all Char.isDigit ∧ ¬(intPart.isEmpty ∧ frac.isEmpty) then
      some (sign * ((digitsToNat intPart : ℚ) +
        (digitsToNat frac : ℚ) / ((10 : ℚ) ^ frac.length)))
    else none
  | _ => none

/-- Floor of a rational, written so that it evaluates inside the kernel
(`Int.ediv` is floor division for the positive denominator of `ℚ`). -/
def ratFloor (q : ℚ) : ℤ :=
  q.num / (q.den : ℤ)

/-- Python `int(x)` on a float: truncation toward zero. -/
def pyInt (q : ℚ) : ℤ :=
  if 0 ≤ q then ratFloor q else -ratFloor (-q)

/-- Python `round` to an integer: round half to even. -/
def roundHalfEven (q : ℚ) : ℤ :=
  let f := ratFloor q
  let r := q - (f : ℚ)
  if r < 1 / 2 then f
  else if r > 1 / 2 then f + 1
  else if f % 2 = 0 then f else f + 1

/-- Python `round(q, ndigits)`. -/
def pyRound (q : ℚ) (ndigits : Nat) : ℚ :=
  ((roundHalfEven (q * (10 : ℚ) ^ ndigits) : ℚ)) / (10 : ℚ) ^ ndigits

/-! Module-level tables (lines 21-36 of the source) -/

/-- Table `VEHICLE_TYPE_MAPPING`: canonical vehicle type → list of accepted variations,
in the source's insertion order (which is the Python dict iteration order). -/
def VEHICLE_TYPE_MAPPING : List (String × List String) :=
  [("standard", ["standard", "normal", "regular", "conventional", "basic", "ordinary"]),
   ("hybrid", ["hybrid", "hev", "hybrid electric vehicle", "electric hybrid", "eco"]),
   ("land_cruiser", ["land cruiser", "landcruiser", "lc", "toyota land cruiser", "land cruiser hybrid"]),
   ("lx600", ["lx600", "lexus lx600", "lx 600", "lexus lx 600"]),
   ("lx700", ["lx700", "lexus lx700", "lx 700", "lexus lx 700"])]

/-- Table `CURRENT_PROFIT_RATES`: new-rules Murabaha profit rate per vehicle type. -/
def CURRENT_PROFIT_RATES : List (String × ℚ) :=
  [("standard", 575 / 10000),
   ("hybrid", 39 / 1000),
   ("land_cruiser", 69 / 1000),
   ("lx600", 69 / 1000),
   ("lx700", 69 / 1000)]

/-! `_safe_float_convert` (lines 38-51) -/

/-- A loosely-typed Python value as fed to the numeric parameters of the tool. -/
inductive PyVal where
  | none
  | num (q : ℚ)
  | str (s : String)
deriving DecidableEq

/-- Line 47: `value.replace(',', '').replace('AED', '').replace('$', '').strip()`. -/
def cleanNumericString (s : String) : String :=
  ⟨stripChars (removeAll ['$'] (removeAll ['A', 'E', 'D'] (removeAll [','] s.toList)))⟩

/-- Function `_safe_float_convert(value, default)`: `None` → default; numbers pass
through; strings are cleaned of `','`, `'AED'`, `'$'`, stripped and parsed,
falling back to the default when parsing raises. -/
def _safe_float_convert (value : PyVal) (default : ℚ) : ℚ :=
  match value with
  | .none => default
  | .num q => q
  | .str s => (parseDecimal (cleanNumericString s)).getD default

/-! `_normalize_vehicle_type` (lines 187-208) -/

/-- Per-category test of the main loop: exact membership in the variation
list, or some variation occurring as a substring of the input. -/
def matchesCategory (input : String) (variations : List String) : Bool :=
  variations.contains input || variations.any (fun v => strContains input v)

/-- The keyword fallback tests of lines 199-206. -/
def fallbackKeywords : List (String × List String) :=
  [("hybrid", ["hybrid", "hev", "electric"]),
   ("land_cruiser", ["land cruiser", "landcruiser", "lc"]),
   ("lx600", ["lx600", "lx 600"]),
   ("lx700", ["lx700", "lx 700"])]

/-- Function `_normalize_vehicle_type(vehicle_input)`. -/
def _normalize_vehicle_type (vehicle_input : String) : String :=
  if vehicle_input = "" then "standard"
  else
    let lower := pyStrip (pyLower vehicle_input)
    match VEHICLE_TYPE_MAPPING.find? (fun p => matchesCategory lower p.2) with
    | some p => p.1
    | Option.none =>
      match fallbackKeywords.find? (fun p => p.2.any (fun k => strContains lower k)) with
      | some p => p.1
      | Option.none => "standard"

/-! `_validate_inputs` (lines 210-227) -/

/-- Function `_validate_inputs`: returns `some message` for the `ValueError` the Python
function raises, `none` when all checks pass. Checked in source order. -/
def _validate_inputs (vehicle_value down_payment : ℚ) (tenure_months : ℤ)
    (customer_type : String) : Option String :=
  if vehicle_value ≤ 0 then some "Vehicle value must be positive"
  else if down_payment ≤ 0 then some "Down payment must be positive"
  else if down_payment ≥ vehicle_value then some "Down payment must be less than vehicle value"
  else if tenure_months ≤ 0 then some "Tenure must be positive"
  else
    let max_tenure : ℤ := if pyLower customer_type = "qatari" then 60 else 48
    if tenure_months > max_tenure then
      some ("Maximum tenure for " ++ customer_type ++ " customers is " ++
        toString max_tenure ++ " months")
    else none

/-! `_get_profit_rate` (lines 229-249) -/

/-- Function `_get_profit_rate(vehicle_type, down_payment_percentage, is_repeat_customer,
use_new_rules)`. The source's re-conversion of `down_payment_percentage` through
`_safe_float_convert` is the identity on an actual float and is omitted. -/
def _get_profit_rate (vehicle_type : String) (down_payment_percentage : ℚ)
    (is_repeat_customer use_new_rules : Bool) : ℚ :=
  let base_rate : ℚ :=
    if use_new_rules then
      ((CURRENT_PROFIT_RATES.lookup vehicle_type).getD (575 / 10000))
    else
      if vehicle_type = "hybrid" then 49 / 1000
      else if (vehicle_type = "land_cruiser" ∨ vehicle_type = "lx600" ∨
               vehicle_type = "lx700") ∧ down_payment_percentage < 50 then 816 / 10000
      else 68 / 1000
  if is_repeat_customer then base_rate * (90 / 100) else base_rate

/-! `calculate_islamic_financing` (lines 53-185) -/

/-- The echoed `input_parameters` block of a successful result. -/
structure InputParameters where
  vehicle_value : ℚ
  down_payment : ℚ
  tenure_months : ℤ
  vehicle_type : String
  customer_type : String
  services_contracts : ℚ
  comprehensive_insurance : ℚ
  use_new_rules : Bool
  is_repeat_customer : Bool
deriving DecidableEq

/-- The `financial_breakdown` block of a successful result (already rounded
for presentation, exactly as the source rounds it). -/
structure FinancialBreakdown where
  vehicle_value_aed : ℚ
  down_payment_aed : ℚ
  down_payment_percentage : ℚ
  balance_amount_aed : ℚ
  profit_rate_percentage : ℚ
  profit_amount_aed : ℚ
  total_financing_amount_aed : ℚ
  monthly_instalment_aed : ℚ
  total_payable_aed : ℚ
deriving DecidableEq

/-- The `additional_costs` block of a successful result. -/
structure AdditionalCosts where
  services_contracts_aed : ℚ
  comprehensive_insurance_aed : ℚ
  total_additional_costs_aed : ℚ
  grand_total_aed : ℚ
deriving DecidableEq

/-- The intermediate quantities of lines 99-122, before any rounding. -/
structure RawFigures where
  down_payment_percentage : ℚ
  profit_rate : ℚ
  balance_amount : ℚ
  profit_amount : ℚ
  total_financing_amount : ℚ
  monthly_instalment : ℚ
  total_payable : ℚ
  total_additional_costs : ℚ
  grand_total : ℚ
deriving DecidableEq

/-- Lines 99-122: the straight-line computation on the converted, validated
inputs. -/
def computeRaw (vehicle_value down_payment : ℚ) (tenure_months : ℤ)
    (vehicle_type : String) (services_contracts comprehensive_insurance : ℚ)
    (use_new_rules is_repeat_customer : Bool) : RawFigures :=
  let down_payment_percentage := down_payment / vehicle_value * 100
  let profit_rate :=
    _get_profit_rate vehicle_type down_payment_percentage is_repeat_customer use_new_rules
  let balance_amount := vehicle_value - down_payment
  let profit_amount := balance_amount * profit_rate * ((tenure_months : ℚ) / 12)
  let total_financing_amount := balance_amount + profit_amount
  let monthly_instalment := total_financing_amount / (tenure_months : ℚ)
  let total_payable := total_financing_amount + down_payment
  let total_additional_costs := services_contracts + comprehensive_insurance
  { down_payment_percentage := down_payment_percentage
    profit_rate := profit_rate
    balance_amount := balance_amount
    profit_amount := profit_amount
    total_financing_amount := total_financing_amount
    monthly_instalment := monthly_instalment
    total_payable := total_payable
    total_additional_costs := total_additional_costs
    grand_total := total_payable + total_additional_costs }

/-- The structured result dictionary: on failure only `success = false` and an
error string are present (the Python failure dict carries no other financial
keys, modelled by the `Option` fields being `none`). -/
structure CalcResult where
  success : Bool
  error : Option String
  input_parameters : Option InputParameters
  financial_breakdown : Option FinancialBreakdown
  additional_costs : Option AdditionalCosts
  max_tenure_months : Option ℤ
deriving DecidableEq

/-- Function `calculate_islamic_financing`: convert the numeric inputs, normalize the
vehicle type, validate, then compute and round the breakdown; a validation
`ValueError` is caught by the outer `except` and reported as a
`success = False` dictionary with message `"Calculation error: ..."`. -/
def calculate_islamic_financing
    (vehicle_value : PyVal := .num 65700)
    (down_payment : PyVal := .num 10000)
    (tenure_months : PyVal := .num 48)
    (vehicle_type : String := "standard")
    (customer_type : String := "individual")
    (services_contracts : PyVal := .num 0)
    (comprehensive_insurance : PyVal := .num 0)
    (use_new_rules : Bool := true)
    (is_repeat_customer : Bool := false) : CalcResult :=
  let vv := _safe_float_convert vehicle_value 65700
  let dp := _safe_float_convert down_payment 10000
  let tm := pyInt (_safe_float_convert tenure_months 48)
  let services := _safe_float_convert services_contracts 0
  let insurance := _safe_float_convert comprehensive_insurance 0
  let vt := _normalize_vehicle_type vehicle_type
  match _validate_inputs vv dp tm customer_type with
  | some msg =>
    { success := false
      error := some ("Calculation error: " ++ msg)
      input_parameters := none
      financial_breakdown := none
      additional_costs := none
      max_tenure_months := none }
  | none =>
    let raw := computeRaw vv dp tm vt services insurance use_new_rules is_repeat_customer
    { success := true
      error := none
      input_parameters := some
        { vehicle_value := vv
          down_payment := dp
          tenure_months := tm
          vehicle_type := vt
          customer_type := customer_type
          services_contracts := services
          comprehensive_insurance := insurance
          use_new_rules := use_new_rules
          is_repeat_customer := is_repeat_customer }
      financial_breakdown := some
        { vehicle_value_aed := pyRound vv 2
          down_payment_aed := pyRound dp 2
          down_payment_percentage := pyRound raw.down_payment_percentage 2
          balance_amount_aed := pyRound raw.balance_amount 2
          profit_rate_percentage := pyRound (raw.profit_rate * 100) 3
          profit_amount_aed := pyRound raw.profit_amount 2
          total_financing_amount_aed := pyRound raw.total_financing_amount 2
          monthly_instalment_aed := pyRound raw.monthly_instalment 2
          total_payable_aed := pyRound raw.total_payable 2 }
      additional_costs := some
        { services_contracts_aed := pyRound services 2
          comprehensive_insurance_aed := pyRound insurance 2
          total_additional_costs_aed := pyRound raw.total_additional_costs 2
          grand_total_aed := pyRound raw.grand_total 2 }
      max_tenure_months := some (if pyLower customer_type = "qatari" then 60 else 48) }

/-! `calculate_multiple_scenarios` (lines 282-344) -/

/-- One entry of the `scenarios` list built on lines 318-325. -/
structure Scenario where
  down_payment_aed : ℚ
  down_payment_percentage : ℚ
  tenure_months : ℤ
  monthly_instalment_aed : ℚ
  total_payable_aed : ℚ
  profit_amount_aed : ℚ
deriving DecidableEq

/-- The result dictionary of `calculate_multiple_scenarios`. -/
structure ScenariosResult where
  success : Bool
  scenarios_count : Nat
  scenarios : List Scenario
deriving DecidableEq

/-- The comparison order of line 332: sort key `monthly_instalment_aed`. -/
def scenarioLE (a b : Scenario) : Prop :=
  a.monthly_instalment_aed ≤ b.monthly_instalment_aed

instance : DecidableRel scenarioLE := fun a b =>
  inferInstanceAs (Decidable (a.monthly_instalment_aed ≤ b.monthly_instalment_aed))

instance : IsTotal Scenario scenarioLE :=
  ⟨fun a b => le_total a.monthly_instalment_aed b.monthly_instalment_aed⟩

instance : IsTrans Scenario scenarioLE :=
  ⟨fun _ _ _ hab hbc => le_trans hab hbc⟩

/-- The inner-loop body (lines 307-329): run the full calculation for one
`(down_payment, tenure)` combination and keep a scenario entry when it
succeeds; a failed combination is skipped (`continue`). -/
def scenarioFor (vehicle_value : PyVal) (vehicle_type customer_type : String)
    (down_payment : ℚ) (tenure : ℤ) : Option Scenario :=
  let result := calculate_islamic_financing vehicle_value (.num down_payment)
    (.num (tenure : ℚ)) vehicle_type customer_type
  if result.success then
    result.financial_breakdown.map (fun fd =>
      { down_payment_aed := _safe_float_convert (.num down_payment) 0
        down_payment_percentage := fd.down_payment_percentage
        tenure_months := tenure
        monthly_instalment_aed := fd.monthly_instalment_aed
        total_payable_aed := fd.total_payable_aed
        profit_amount_aed := fd.profit_amount_aed })
  else none

/-- Function `calculate_multiple_scenarios`: compute every combination of the cartesian
product, keep the successful ones, and sort ascending by monthly instalment
(Python's stable `list.sort`, modelled by insertion sort). -/
def calculate_multiple_scenarios (vehicle_value : PyVal)
    (down_payments : List ℚ) (tenures : List ℤ)
    (vehicle_type : String := "standard")
    (customer_type : String := "individual") : ScenariosResult :=
  let scenarios := down_payments.flatMap (fun dp =>
    tenures.filterMap (fun t => scenarioFor vehicle_value vehicle_type customer_type dp t))
  let sorted := List.insertionSort scenarioLE scenarios
  { success := true
    scenarios_count := sorted.length
    scenarios := sorted }

/-- The canonical vehicle-type categories the normalizer can produce. -/
def canonicalVehicleTypes : List String :=
  ["standard", "hybrid", "land_cruiser", "lx600", "lx700"]

/-- The shape the claim requires of every result: either a full success
envelope, or a failure envelope that carries only a nonempty
`Calculation error: ...` message and no financial fields. -/
def WellFormedResult (r : CalcResult) : Prop :=
  (r.success = true ∧ r.error = Option.none ∧ r.financial_breakdown.isSome = true ∧
    r.input_parameters.isSome = true ∧ r.additional_costs.isSome = true ∧
    r.max_tenure_months.isSome = true) ∨
  (r.success = false ∧ r.financial_breakdown = Option.none ∧
    r.input_parameters = Option.none ∧ r.additional_costs = Option.none ∧
    r.max_tenure_months = Option.none ∧
    ∃ msg, r.error = some ("Calculation error: " ++ msg) ∧ msg ≠ "")

/-- The input matches some keyword of the normalizer: some category of the
main loop (exact or substring), or some fallback keyword. -/
def matchesAnyKeyword (s : String) : Bool :=
  VEHICLE_TYPE_MAPPING.any (fun p => matchesCategory (pyStrip (pyLower s)) p.2) ||
  fallbackKeywords.any (fun p => p.2.any (fun k => strContains (pyStrip (pyLower s)) k))

/-- The number of combinations of the cartesian product whose calculation
fails validation. -/
def failingCombinations (vv : PyVal) (dps : List ℚ) (ts : List ℤ)
    (vt ct : String) : Nat :=
  (dps.flatMap (fun dp => ts.map (fun t => (dp, t)))).countP
    (fun p => !(calculate_islamic_financing vv (.num p.1) (.num (p.2 : ℚ)) vt ct).success)

end IslamicFinancing

attribute [local semireducible] Rat.mul Rat.add Rat.sub Rat.inv Rat.ofScientific

namespace IslamicFinancing

/-! Theorems -/

/-- Helper: the validator reports a failure exactly on the disjunction of its
five checks. -/
lemma validate_isSome_iff (vv dp : ℚ) (tm : ℤ) (ct : String) :
    _validate_inputs vv dp tm ct ≠ none ↔
      vv ≤ 0 ∨ dp ≤ 0 ∨ dp ≥ vv ∨ tm ≤ 0 ∨
        tm > (if pyLower ct = "qatari" then 60 else 48) := by
  unfold _validate_inputs
  split_ifs with h1 h2 h3 h4 h5 <;> simp_all <;>
    exact ⟨fun h => by tauto, fun h => by rcases h with h | h | h | h | h <;> linarith⟩

/-- Helper: `pyInt` is the identity on integer-valued rationals. -/
lemma pyInt_intCast (n : ℤ) : pyInt ((n : ℤ) : ℚ) = n := by
  unfold pyInt ratFloor
  rcases le_or_lt 0 ((n : ℚ)) with h | h
  · rw [if_pos h, Rat.num_intCast, Rat.den_intCast]
    simp
  · rw [if_neg (not_le.mpr h)]
    have : ((-n : ℤ) : ℚ) = -((n : ℤ) : ℚ) := by push_cast; ring
    rw [← this, Rat.num_intCast, Rat.den_intCast]
    simp

/-- C1: the concrete scenario vehicle_value=65700, down_payment=10000,
tenure_months=48, vehicle_type="standard", customer_type="individual",
use_new_rules=true, is_repeat_customer=false succeeds, and the financial
breakdown reports down_payment_percentage=15.22, profit_rate=5.75%,
balance_amount=55700, profit_amount=12811, total_financing_amount=68511,
monthly_instalment=1427.31 and total_payable=78511 (rounded to 2 decimal
places at presentation). -/
theorem concrete_scenario_breakdown :
    (calculate_islamic_financing (.num 65700) (.num 10000) (.num 48)
        "standard" "individual" (.num 0) (.num 0) true false).success = true ∧
    (calculate_islamic_financing (.num 65700) (.num 10000) (.num 48)
        "standard" "individual" (.num 0) (.num 0) true false).financial_breakdown = some
      { vehicle_value_aed := 65700
        down_payment_aed := 10000
        down_payment_percentage := 1522 / 100
        balance_amount_aed := 55700
        profit_rate_percentage := 575 / 100
        profit_amount_aed := 12811
        total_financing_amount_aed := 68511
        monthly_instalment_aed := 142731 / 100
        total_payable_aed := 78511 } := by
  decide

/-- C2: for every request accepted by the validator, the quantities computed
before any rounding satisfy total_financing_amount = balance_amount +
profit_amount and total_payable = total_financing_amount + down_payment
exactly, and monthly_instalment × tenure_months equals total_financing_amount
within a tolerance of 0.01. -/
theorem raw_invariants (vv dp : ℚ) (tm : ℤ) (vt ct : String)
    (services insurance : ℚ) (useNew isRepeat : Bool)
    (h : _validate_inputs vv dp tm ct = none) :
    (computeRaw vv dp tm vt services insurance useNew isRepeat).total_financing_amount =
      (computeRaw vv dp tm vt services insurance useNew isRepeat).balance_amount +
      (computeRaw vv dp tm vt services insurance useNew isRepeat).profit_amount ∧
    (computeRaw vv dp tm vt services insurance useNew isRepeat).total_payable =
      (computeRaw vv dp tm vt services insurance useNew isRepeat).total_financing_amount + dp ∧
    |(computeRaw vv dp tm vt services insurance useNew isRepeat).monthly_instalment * (tm : ℚ) -
      (computeRaw vv dp tm vt services insurance useNew isRepeat).total_financing_amount| ≤
      1 / 100 := by
  have htm : (0 : ℤ) < tm := by
    by_contra hle
    exact (validate_isSome_iff vv dp tm ct).mpr
      (Or.inr (Or.inr (Or.inr (Or.inl (by omega))))) h
  have htmQ : ((tm : ℤ) : ℚ) ≠ 0 := Int.cast_ne_zero.mpr (by omega)
  refine ⟨rfl, rfl, ?_⟩
  simp only [computeRaw]
  rw [div_mul_cancel₀ _ htmQ, sub_self, abs_zero]
  norm_num

/-- Witness for C2 at the default scenario. -/
theorem raw_invariants_witness :
    _validate_inputs 65700 10000 48 "individual" = none ∧
    ((computeRaw 65700 10000 48 "standard" 0 0 true false).total_financing_amount =
      (computeRaw 65700 10000 48 "standard" 0 0 true false).balance_amount +
      (computeRaw 65700 10000 48 "standard" 0 0 true false).profit_amount ∧
    (computeRaw 65700 10000 48 "standard" 0 0 true false).total_payable =
      (computeRaw 65700 10000 48 "standard" 0 0 true false).total_financing_amount + 10000 ∧
    |(computeRaw 65700 10000 48 "standard" 0 0 true false).monthly_instalment * ((48 : ℤ) : ℚ) -
      (computeRaw 65700 10000 48 "standard" 0 0 true false).total_financing_amount| ≤
      1 / 100) :=
  ⟨by decide, raw_invariants 65700 10000 48 "standard" "individual" 0 0 true false (by decide)⟩

/-- C3: for every canonical vehicle type, the profit-rate resolver returns the
fixed per-vehicle new-rules rate (standard 0.0575, hybrid 0.039,
land_cruiser/lx600/lx700 0.069); under the legacy rules 0.049 for hybrid,
0.0816 for land_cruiser/lx600/lx700 with down_payment_percentage < 50 and
0.068 otherwise; and the repeat-customer result is exactly 0.90 times the
non-discounted rate under both rule generations. -/
theorem profit_rate_resolution (vt : String) (dpp : ℚ)
    (hvt : vt ∈ canonicalVehicleTypes) :
    (_get_profit_rate vt dpp false true =
      if vt = "standard" then 575 / 10000
      else if vt = "hybrid" then 39 / 1000
      else 69 / 1000) ∧
    (_get_profit_rate vt dpp false false =
      if vt = "hybrid" then 49 / 1000
      else if (vt = "land_cruiser" ∨ vt = "lx600" ∨ vt = "lx700") ∧ dpp < 50 then 816 / 10000
      else 68 / 1000) ∧
    (∀ useNew : Bool, _get_profit_rate vt dpp true useNew =
      (90 / 100) * _get_profit_rate vt dpp false useNew) := by
  have hdisc : ∀ u : Bool, _get_profit_rate vt dpp true u =
      (90 / 100) * _get_profit_rate vt dpp false u := by
    intro u
    unfold _get_profit_rate
    simp only [if_true, Bool.false_eq_true, if_false]
    ring
  fin_cases hvt <;>
    refine ⟨?_, ?_, hdisc⟩ <;>
    unfold _get_profit_rate <;>
    by_cases hd : dpp < 50 <;>
    simp [CURRENT_PROFIT_RATES, List.lookup, hd]

/-- Witness for C3 at vehicle_type="hybrid", down_payment_percentage=20. -/
theorem profit_rate_resolution_witness :
    "hybrid" ∈ canonicalVehicleTypes ∧
    ((_get_profit_rate "hybrid" 20 false true =
      if "hybrid" = "standard" then 575 / 10000
      else if "hybrid" = "hybrid" then 39 / 1000
      else 69 / 1000) ∧
    (_get_profit_rate "hybrid" 20 false false =
      if "hybrid" = "hybrid" then 49 / 1000
      else if ("hybrid" = "land_cruiser" ∨ "hybrid" = "lx600" ∨ "hybrid" = "lx700") ∧
        (20 : ℚ) < 50 then 816 / 10000
      else 68 / 1000) ∧
    (∀ useNew : Bool, _get_profit_rate "hybrid" 20 true useNew =
      (90 / 100) * _get_profit_rate "hybrid" 20 false useNew)) :=
  ⟨by decide, profit_rate_resolution "hybrid" 20 (by decide)⟩

/-- C4: after numeric conversion the calculation fails exactly when
vehicle_value ≤ 0, down_payment ≤ 0, down_payment ≥ vehicle_value,
tenure_months ≤ 0, or tenure_months exceeds the customer-type cap (60 when
customer_type lowercases to "qatari", 48 otherwise); in particular 48 months
is accepted for "individual", 49 is rejected for "individual", and 60 is
accepted for "qatari". -/
theorem validation_failure_iff :
    (∀ (vv dp : ℚ) (tm : ℤ) (vt ct : String) (sc ci : PyVal) (useNew isRepeat : Bool),
      (calculate_islamic_financing (.num vv) (.num dp) (.num ((tm : ℤ) : ℚ)) vt ct
        sc ci useNew isRepeat).success = false ↔
        (vv ≤ 0 ∨ dp ≤ 0 ∨ dp ≥ vv ∨ tm ≤ 0 ∨
          tm > (if pyLower ct = "qatari" then 60 else 48))) ∧
    (calculate_islamic_financing (.num 65700) (.num 10000) (.num 48) "standard" "individual"
      (.num 0) (.num 0) true false).success = true ∧
    (calculate_islamic_financing (.num 65700) (.num 10000) (.num 49) "standard" "individual"
      (.num 0) (.num 0) true false).success = false ∧
    (calculate_islamic_financing (.num 65700) (.num 10000) (.num 60) "standard" "qatari"
      (.num 0) (.num 0) true false).success = true := by
  refine ⟨?_, by decide, by decide, by decide⟩
  intro vv dp tm vt ct sc ci useNew isRepeat
  unfold calculate_islamic_financing
  simp only [_safe_float_convert, pyInt_intCast]
  cases hval : _validate_inputs vv dp tm ct with
  | none =>
    simp only [hval]
    constructor
    · intro hfalse
      simp at hfalse
    · intro hrhs
      exact absurd hval ((validate_isSome_iff vv dp tm ct).mpr hrhs)
  | some msg =>
    simp only [hval]
    constructor
    · intro _
      exact (validate_isSome_iff vv dp tm ct).mp (by simp [hval])
    · intro _
      trivial

/-- Helper: every message the validator can return is nonempty. -/
lemma validate_msg_ne_empty (vv dp : ℚ) (tm : ℤ) (ct : String) (msg : String)
    (h : _validate_inputs vv dp tm ct = some msg) : msg ≠ "" := by
  have l1 : ("Maximum tenure for " : String).length = 19 := by decide
  have l0 : ("" : String).length = 0 := by decide
  unfold _validate_inputs at h
  simp only [] at h
  split_ifs at h <;>
    first
      | exact Option.noConfusion h
      | (rw [Option.some.injEq] at h
         subst h
         first
           | decide
           | (intro hcontra
              have hlen := congrArg String.length hcontra
              rw [String.length_append, String.length_append, String.length_append,
                String.length_append, l1, l0] at hlen
              omega))

/-- C5: for every input, the calculation returns a structured result — either
a full success envelope, or a `success = false` envelope carrying a
human-readable (nonempty) `Calculation error: ...` message and no partial
financial fields; no exception escapes the function. -/
theorem calculation_never_raises (v1 v2 v3 v4 v5 : PyVal) (vt ct : String)
    (useNew isRepeat : Bool) :
    WellFormedResult (calculate_islamic_financing v1 v2 v3 vt ct v4 v5 useNew isRepeat) := by
  unfold WellFormedResult
  cases hval : _validate_inputs (_safe_float_convert v1 65700) (_safe_float_convert v2 10000)
      (pyInt (_safe_float_convert v3 48)) ct with
  | some msg =>
    right
    unfold calculate_islamic_financing
    simp only [hval]
    refine ⟨by simp, by simp, by simp, by simp, by simp, msg, by simp,
      validate_msg_ne_empty _ _ _ _ _ hval⟩
  | none =>
    left
    unfold calculate_islamic_financing
    simp only [hval]
    refine ⟨by simp, by simp, by simp, by simp, by simp, by simp⟩

/-- C6: when every numeric field is supplied as an unparseable string, each
falls back to its documented default (vehicle_value=65700, down_payment=10000,
tenure_months=48, services_contracts=0, comprehensive_insurance=0) and the
calculation proceeds to a success result rather than failing. -/
theorem unparseable_inputs_fall_back (s1 s2 s3 s4 s5 : String)
    (h1 : parseDecimal (cleanNumericString s1) = Option.none)
    (h2 : parseDecimal (cleanNumericString s2) = Option.none)
    (h3 : parseDecimal (cleanNumericString s3) = Option.none)
    (h4 : parseDecimal (cleanNumericString s4) = Option.none)
    (h5 : parseDecimal (cleanNumericString s5) = Option.none) :
    _safe_float_convert (.str s1) 65700 = 65700 ∧
    (calculate_islamic_financing (.str s1) (.str s2) (.str s3) "standard" "individual"
      (.str s4) (.str s5) true false).success = true ∧
    (calculate_islamic_financing (.str s1) (.str s2) (.str s3) "standard" "individual"
      (.str s4) (.str s5) true false).input_parameters = some
      { vehicle_value := 65700
        down_payment := 10000
        tenure_months := 48
        vehicle_type := "standard"
        customer_type := "individual"
        services_contracts := 0
        comprehensive_insurance := 0
        use_new_rules := true
        is_repeat_customer := false } := by
  have e1 : _safe_float_convert (.str s1) 65700 = 65700 := by
    simp [_safe_float_convert, h1]
  have e2 : _safe_float_convert (.str s2) 10000 = 10000 := by
    simp [_safe_float_convert, h2]
  have e3 : _safe_float_convert (.str s3) 48 = 48 := by
    simp [_safe_float_convert, h3]
  have e4 : _safe_float_convert (.str s4) 0 = 0 := by
    simp [_safe_float_convert, h4]
  have e5 : _safe_float_convert (.str s5) 0 = 0 := by
    simp [_safe_float_convert, h5]
  refine ⟨e1, ?_⟩
  simp only [calculate_islamic_financing, e1, e2, e3, e4, e5,
    show pyInt 48 = 48 from by decide,
    show _normalize_vehicle_type "standard" = "standard" from by decide,
    show _validate_inputs 65700 10000 48 "individual" = Option.none from by decide]
  exact ⟨by simp, by simp⟩

/-- Witness for C6: the string "abc" is unparseable for all five numeric
fields, and the calculation succeeds on the documented defaults. -/
theorem unparseable_inputs_fall_back_witness :
    parseDecimal (cleanNumericString "abc") = Option.none ∧
    (_safe_float_convert (.str "abc") 65700 = 65700 ∧
    (calculate_islamic_financing (.str "abc") (.str "abc") (.str "abc") "standard" "individual"
      (.str "abc") (.str "abc") true false).success = true ∧
    (calculate_islamic_financing (.str "abc") (.str "abc") (.str "abc") "standard" "individual"
      (.str "abc") (.str "abc") true false).input_parameters = some
      { vehicle_value := 65700
        down_payment := 10000
        tenure_months := 48
        vehicle_type := "standard"
        customer_type := "individual"
        services_contracts := 0
        comprehensive_insurance := 0
        use_new_rules := true
        is_repeat_customer := false }) :=
  ⟨by decide, unparseable_inputs_fall_back "abc" "abc" "abc" "abc" "abc"
    (by decide) (by decide) (by decide) (by decide) (by decide)⟩

/-- C7 counterexample: "land cruiser hybrid" is (already lowercased and
trimmed) an exact member of the land_cruiser variant list, yet the normalizer
returns "hybrid", because the earlier hybrid category already matches by
substring — exact variant-list membership does not take priority. -/
theorem exact_variant_not_prioritized :
    "land cruiser hybrid" ∈ ((VEHICLE_TYPE_MAPPING.lookup "land_cruiser").getD []) ∧
    pyStrip (pyLower "land cruiser hybrid") = "land cruiser hybrid" ∧
    _normalize_vehicle_type "land cruiser hybrid" = "hybrid" ∧
    _normalize_vehicle_type "land cruiser hybrid" ≠ "land_cruiser" := by
  decide

/-- Helper: `find?` returns the `i`-th element when the predicate fails on
every earlier element and holds at `i`. -/
lemma find?_eq_get {α : Type} (p : α → Bool) (l : List α) (i : Fin l.length)
    (hi : p (l.get i) = true)
    (hj : ∀ j : Fin l.length, (j : ℕ) < (i : ℕ) → p (l.get j) = false) :
    l.find? p = some (l.get i) := by
  induction l with
  | nil => exact absurd i.isLt (by simp)
  | cons a l ih =>
    cases i using Fin.cases with
    | zero =>
      exact List.find?_cons_of_pos l hi
    | succ i' =>
      have ha : p a = false := hj ⟨0, by simp⟩ (by simp)
      rw [List.find?_cons_of_neg l (by simp [ha])]
      exact ih i' hi (fun j hlt => hj j.succ (by simpa using hlt))

/-- C7 (amended): an input whose lowercased, trimmed form is an exact member
of a canonical category's variant list normalizes to that category, provided
no earlier category in the fixed priority order matches the input (by exact
membership or by one of its variants occurring as a substring); an earlier
category's substring match otherwise takes priority over the exact match. -/
theorem exact_variant_match_amended (s : String) (i : Fin VEHICLE_TYPE_MAPPING.length)
    (hmem : pyStrip (pyLower s) ∈ (VEHICLE_TYPE_MAPPING.get i).2)
    (hearlier : ∀ j : Fin VEHICLE_TYPE_MAPPING.length, (j : ℕ) < (i : ℕ) →
      matchesCategory (pyStrip (pyLower s)) (VEHICLE_TYPE_MAPPING.get j).2 = false) :
    _normalize_vehicle_type s = (VEHICLE_TYPE_MAPPING.get i).1 := by
  by_cases hemp : s = ""
  · subst hemp
    have hlow : pyStrip (pyLower "") = "" := by decide
    rw [hlow] at hmem
    fin_cases i <;> exact absurd hmem (by decide)
  · have hi : matchesCategory (pyStrip (pyLower s)) (VEHICLE_TYPE_MAPPING.get i).2 = true := by
      simp only [matchesCategory, Bool.or_eq_true]
      left
      exact List.elem_iff.mpr hmem
    have hfind : VEHICLE_TYPE_MAPPING.find?
        (fun p => matchesCategory (pyStrip (pyLower s)) p.2) = some (VEHICLE_TYPE_MAPPING.get i) :=
      find?_eq_get _ _ i hi hearlier
    unfold _normalize_vehicle_type
    rw [if_neg hemp]
    simp only [hfind]

/-- Witness for C7 (amended) at input "LC", whose lowered form "lc" is an
exact member of the land_cruiser (index 2) variant list and matches no
earlier category. -/
theorem exact_variant_match_amended_witness :
    pyStrip (pyLower "LC") ∈ (VEHICLE_TYPE_MAPPING.get ⟨2, by decide⟩).2 ∧
    (∀ j : Fin VEHICLE_TYPE_MAPPING.length, (j : ℕ) < 2 →
      matchesCategory (pyStrip (pyLower "LC")) (VEHICLE_TYPE_MAPPING.get j).2 = false) ∧
    _normalize_vehicle_type "LC" = (VEHICLE_TYPE_MAPPING.get ⟨2, by decide⟩).1 :=
  ⟨by decide, by decide,
    exact_variant_match_amended "LC" ⟨2, by decide⟩ (by decide) (by decide)⟩

/-- C8: "Land Cruiser", "landcruiser" and "LC" all normalize to
"land_cruiser" and yield identical profit rates for otherwise identical
requests, and every input matching no keyword normalizes to "standard"
without error. -/
theorem land_cruiser_aliases_and_fallback :
    (_normalize_vehicle_type "Land Cruiser" = "land_cruiser" ∧
     _normalize_vehicle_type "landcruiser" = "land_cruiser" ∧
     _normalize_vehicle_type "LC" = "land_cruiser" ∧
     (∀ (dpp : ℚ) (isRepeat useNew : Bool),
        _get_profit_rate (_normalize_vehicle_type "Land Cruiser") dpp isRepeat useNew =
          _get_profit_rate (_normalize_vehicle_type "landcruiser") dpp isRepeat useNew ∧
        _get_profit_rate (_normalize_vehicle_type "landcruiser") dpp isRepeat useNew =
          _get_profit_rate (_normalize_vehicle_type "LC") dpp isRepeat useNew)) ∧
    (∀ s : String, matchesAnyKeyword s = false → _normalize_vehicle_type s = "standard") := by
  refine ⟨⟨by decide, by decide, by decide, ?_⟩, ?_⟩
  · intro dpp isRepeat useNew
    rw [show _normalize_vehicle_type "Land Cruiser" = "land_cruiser" from by decide,
      show _normalize_vehicle_type "landcruiser" = "land_cruiser" from by decide,
      show _normalize_vehicle_type "LC" = "land_cruiser" from by decide]
    exact ⟨rfl, rfl⟩
  · intro s hs
    unfold _normalize_vehicle_type
    by_cases hemp : s = ""
    · rw [if_pos hemp]
    · rw [if_neg hemp]
      unfold matchesAnyKeyword at hs
      rw [Bool.or_eq_false_iff] at hs
      obtain ⟨h1, h2⟩ := hs
      have hf1 : VEHICLE_TYPE_MAPPING.find?
          (fun p => matchesCategory (pyStrip (pyLower s)) p.2) = Option.none :=
        List.find?_eq_none.mpr (fun x hx => by
          simpa using (List.any_eq_false.mp h1) x hx)
      have hf2 : fallbackKeywords.find?
          (fun p => p.2.any (fun k => strContains (pyStrip (pyLower s)) k)) = Option.none :=
        List.find?_eq_none.mpr (fun x hx => by
          simpa using (List.any_eq_false.mp h2) x hx)
      simp only [hf1, hf2]

/-- Witness for C8's fallback clause at the unmatched input "xyzzy". -/
theorem land_cruiser_aliases_and_fallback_witness :
    matchesAnyKeyword "xyzzy" = false ∧ _normalize_vehicle_type "xyzzy" = "standard" :=
  ⟨by decide, land_cruiser_aliases_and_fallback.2 "xyzzy" (by decide)⟩

/-- Helper: a result reports success exactly when it carries a financial
breakdown. -/
lemma calc_success_eq_isSome (v1 v2 v3 v4 v5 : PyVal) (vt ct : String) (u r : Bool) :
    (calculate_islamic_financing v1 v2 v3 vt ct v4 v5 u r).financial_breakdown.isSome =
      (calculate_islamic_financing v1 v2 v3 vt ct v4 v5 u r).success := by
  unfold calculate_islamic_financing
  cases hval : _validate_inputs (_safe_float_convert v1 65700) (_safe_float_convert v2 10000)
      (pyInt (_safe_float_convert v3 48)) ct <;> simp [hval]

/-- Helper: the inner-loop body keeps an entry exactly when the calculation
for that combination succeeds. -/
lemma scenarioFor_isSome (vv : PyVal) (vt ct : String) (dp : ℚ) (t : ℤ) :
    (scenarioFor vv vt ct dp t).isSome =
      (calculate_islamic_financing vv (.num dp) (.num (t : ℚ)) vt ct).success := by
  unfold scenarioFor
  cases hs : (calculate_islamic_financing vv (.num dp) (.num (t : ℚ)) vt ct).success
  · simp [hs]
  · have hb := calc_success_eq_isSome vv (.num dp) (.num (t : ℚ)) (.num 0) (.num 0)
      vt ct true false
    rw [hs] at hb
    obtain ⟨fd, hfd⟩ := Option.isSome_iff_exists.mp hb
    simp [hs, hfd]

/-- Helper: the length of a `filterMap` is the count of inputs the function
keeps. -/
lemma length_filterMap_countP {α β : Type} (f : α → Option β) (l : List α) :
    (l.filterMap f).length = l.countP (fun a => (f a).isSome) := by
  induction l with
  | nil => rfl
  | cons a l ih =>
    cases h : f a <;> simp [List.filterMap_cons, h, List.countP_cons, ih]

/-- Helper: kept scenarios and failing combinations partition the cartesian
product. -/
lemma scenarios_length_add_failing (vv : PyVal) (dps : List ℚ) (ts : List ℤ)
    (vt ct : String) :
    (dps.flatMap (fun dp => ts.filterMap (fun t => scenarioFor vv vt ct dp t))).length +
      failingCombinations vv dps ts vt ct = dps.length * ts.length := by
  have hper : ∀ dp : ℚ,
      (ts.filterMap (fun t => scenarioFor vv vt ct dp t)).length +
        (ts.map (fun t => (dp, t))).countP
          (fun p => !(calculate_islamic_financing vv (.num p.1) (.num (p.2 : ℚ)) vt ct).success) =
        ts.length := by
    intro dp
    rw [length_filterMap_countP, List.countP_map]
    have h1 : ts.countP (fun t => (scenarioFor vv vt ct dp t).isSome) =
        ts.countP (fun (t : ℤ) =>
          (calculate_islamic_financing vv (.num dp) (.num (t : ℚ)) vt ct).success) :=
      List.countP_congr (fun t _ => by rw [scenarioFor_isSome])
    have h2 := List.length_eq_countP_add_countP
      (fun (t : ℤ) => (calculate_islamic_financing vv (.num dp) (.num (t : ℚ)) vt ct).success) ts
    have h3 : ts.countP ((fun p : ℚ × ℤ =>
          !(calculate_islamic_financing vv (.num p.1) (.num (p.2 : ℚ)) vt ct).success) ∘
          (fun t => (dp, t))) =
        ts.countP (fun (t : ℤ) =>
          ¬(calculate_islamic_financing vv (.num dp) (.num (t : ℚ)) vt ct).success = true) :=
      List.countP_congr (fun t _ => by simp [Function.comp])
    rw [h1, h3]
    omega
  induction dps with
  | nil => simp [failingCombinations]
  | cons dp dps ih =>
    have hthis := hper dp
    simp only [List.flatMap_cons, List.length_append, failingCombinations,
      List.countP_append, List.length_cons] at *
    have := ih
    ring_nf
    omega

/-- C9: the comparator computes the full calculation over the whole cartesian
product of down payments and tenures, skips (without failing) every failing
combination, returns the survivors sorted ascending by monthly instalment,
and the number of returned scenarios equals the number of combinations minus
the number that fail validation. -/
theorem multiple_scenarios_sorted_and_complete (vv : PyVal) (dps : List ℚ)
    (ts : List ℤ) (vt ct : String) :
    List.Sorted scenarioLE (calculate_multiple_scenarios vv dps ts vt ct).scenarios ∧
    (calculate_multiple_scenarios vv dps ts vt ct).scenarios.length =
      dps.length * ts.length - failingCombinations vv dps ts vt ct ∧
    (∀ dp ∈ dps, ∀ t ∈ ts, ∀ sc, scenarioFor vv vt ct dp t = some sc →
      sc ∈ (calculate_multiple_scenarios vv dps ts vt ct).scenarios) := by
  simp only [calculate_multiple_scenarios]
  refine ⟨List.sorted_insertionSort scenarioLE _, ?_, ?_⟩
  · rw [List.length_insertionSort]
    have := scenarios_length_add_failing vv dps ts vt ct
    omega
  · intro dp hdp t ht sc hsc
    rw [List.mem_insertionSort]
    exact List.mem_flatMap.mpr ⟨dp, hdp, List.mem_filterMap.mpr ⟨t, ht, hsc⟩⟩

/-- Witness for C9 at a concrete comparison (tenure 60 fails for
"individual", so 4 of the 6 combinations survive). -/
theorem multiple_scenarios_sorted_and_complete_witness :
    List.Sorted scenarioLE
      (calculate_multiple_scenarios (.num 65700) [10000, 15000] [36, 48, 60]
        "standard" "individual").scenarios ∧
    (calculate_multiple_scenarios (.num 65700) [10000, 15000] [36, 48, 60]
      "standard" "individual").scenarios.length =
      2 * 3 - failingCombinations (.num 65700) [10000, 15000] [36, 48, 60]
        "standard" "individual" ∧
    (∀ dp ∈ [(10000 : ℚ), 15000], ∀ t ∈ [(36 : ℤ), 48, 60], ∀ sc,
      scenarioFor (.num 65700) "standard" "individual" dp t = some sc →
      sc ∈ (calculate_multiple_scenarios (.num 65700) [10000, 15000] [36, 48, 60]
        "standard" "individual").scenarios) :=
  multiple_scenarios_sorted_and_complete (.num 65700) [10000, 15000] [36, 48, 60]
    "standard" "individual"

/-- C10: the comparator always reports success; when every combination fails
validation it returns the empty scenarios list with scenarios_count = 0
rather than any error indication. -/
theorem multiple_scenarios_always_success (vv : PyVal) (dps : List ℚ)
    (ts : List ℤ) (vt ct : String) :
    (calculate_multiple_scenarios vv dps ts vt ct).success = true ∧
    ((∀ dp ∈ dps, ∀ t ∈ ts,
        (calculate_islamic_financing vv (.num dp) (.num (t : ℚ)) vt ct).success = false) →
      (calculate_multiple_scenarios vv dps ts vt ct).scenarios = [] ∧
      (calculate_multiple_scenarios vv dps ts vt ct).scenarios_count = 0) := by
  constructor
  · rfl
  · intro hall
    have hnil : dps.flatMap (fun dp => ts.filterMap (fun t => scenarioFor vv vt ct dp t)) = [] := by
      rw [List.flatMap_eq_nil_iff]
      intro dp hdp
      rw [List.filterMap_eq_nil_iff]
      intro t ht
      simp [scenarioFor, hall dp hdp t ht]
    simp only [calculate_multiple_scenarios, hnil]
    exact ⟨rfl, rfl⟩

/-- Witness for C10: with vehicle_value = 0 every combination fails
validation and the comparator still succeeds with an empty scenarios list. -/
theorem multiple_scenarios_always_success_witness :
    (calculate_multiple_scenarios (.num 0) [10000] [48] "standard" "individual").success = true ∧
    (calculate_multiple_scenarios (.num 0) [10000] [48] "standard" "individual").scenarios = [] ∧
    (calculate_multiple_scenarios (.num 0) [10000] [48] "standard"
      "individual").scenarios_count = 0 := by
  have h := multiple_scenarios_always_success (.num 0) [10000] [48] "standard" "individual"
  have hfail : ∀ dp ∈ [(10000 : ℚ)], ∀ t ∈ [(48 : ℤ)],
      (calculate_islamic_financing (.num 0) (.num dp) (.num (t : ℚ)) "standard"
        "individual").success = false := by
    intro dp hdp t ht
    simp only [List.mem_singleton] at hdp ht
    subst hdp
    subst ht
    decide
  exact ⟨h.1, (h.2 hfail).1, (h.2 hfail).2⟩

end IslamicFinancing
